import Mathlib

/-!
Formal model of the shock-trade trading core (event-to-position pipeline).

The Python source is embedded shallowly:
* real-valued quantities (prices, sizes, P&L) are modelled as rationals `ℚ`
  (every constant in the relevant code paths is an exact decimal);
* timestamps (`datetime.utcnow()`) and the current calendar date
  (`date.today()`) are passed to each operation as explicit parameters;
* generated UUIDs are passed as explicit string parameters;
* Python dictionaries are association lists; mutation is explicit state
  passing: each method returns its result together with the updated state;
* logging and the monitoring service are observational (the spec declares
  telemetry control-flow free) and are omitted;
* exceptions raised by the exchange collaborator are modelled with `Except`.
-/

/-- Python `round` to an integer: round-half-to-even (banker's rounding),
on the idealized decimal value. -/
def roundHalfEven (q : ℚ) : ℤ :=
  let f : ℤ := ⌊q⌋
  let r : ℚ := q - f
  if r < 1/2 then f
  else if 1/2 < r then f + 1
  else if f % 2 = 0 then f else f + 1

/-- Python `round(x, 2)`. -/
def round2 (q : ℚ) : ℚ := (roundHalfEven (100 * q) : ℚ) / 100

/-- Helper for two-digit zero padding. -/
def pad2 (n : ℕ) : String := if n < 10 then "0" ++ toString n else toString n

/-- Python f-string `:.2f` formatting (on the idealized decimal value). -/
def fmt2 (q : ℚ) : String :=
  let n : ℤ := roundHalfEven (100 * q)
  let a : ℕ := n.natAbs
  (if n < 0 then "-" else "") ++ toString (a / 100) ++ "." ++ pad2 (a % 100)

/-- Python f-string `:.0f` formatting. -/
def fmt0 (q : ℚ) : String := toString (roundHalfEven q)

/-- Python f-string `:.1f` formatting. -/
def fmt1 (q : ℚ) : String :=
  let n : ℤ := roundHalfEven (10 * q)
  let a : ℕ := n.natAbs
  (if n < 0 then "-" else "") ++ toString (a / 10) ++ "." ++ toString (a % 10)

/-- Lowercase one character, as Python `str.lower` does for ASCII. -/
def lowerChar (c : Char) : Char :=
  if 65 ≤ c.toNat ∧ c.toNat ≤ 90 then Char.ofNat (c.toNat + 32) else c

/-- Python `str.lower()` (ASCII fragment, which covers the data used here). -/
def pyLower (s : String) : String := ⟨s.data.map lowerChar⟩

/-- Check that the first list starts the second one. -/
def leadsWith : List Char → List Char → Bool
  | [], _ => true
  | _ :: _, [] => false
  | a :: as, b :: bs => a = b && leadsWith as bs

/-- Python substring test `needle in haystack`. -/
def listContains (needle : List Char) : List Char → Bool
  | [] => needle.isEmpty
  | c :: rest => leadsWith needle (c :: rest) || listContains needle rest

/-- Python `needle in haystack` on strings. -/
def pyContains (haystack needle : String) : Bool :=
  listContains needle.data haystack.data

/-- Python `str.replace(pat, repl)`, all non-overlapping occurrences
left to right (the source only uses a non-empty `pat`). -/
def listReplace (pat repl : List Char) : List Char → List Char
  | [] => []
  | c :: rest =>
    if pat ≠ [] ∧ leadsWith pat (c :: rest) = true then
      repl ++ listReplace pat repl (rest.drop (pat.length - 1))
    else
      c :: listReplace pat repl rest
termination_by l => l.length
decreasing_by
  · simp only [List.length_drop, List.length_cons]
    omega
  · simp [List.length_cons]

/-- Python `str.replace` on strings. -/
def pyReplace (s pat repl : String) : String :=
  ⟨listReplace pat.data repl.data s.data⟩

/-- Split a character list on whitespace runs, dropping empty pieces
(Python `str.split()` with no arguments). -/
def wordsAux : List Char → List Char → List (List Char)
  | [], acc => if acc.isEmpty then [] else [acc.reverse]
  | c :: rest, acc =>
    if c = ' ' ∨ c = '\t' ∨ c = '\n' then
      if acc.isEmpty then wordsAux rest [] else acc.reverse :: wordsAux rest []
    else
      wordsAux rest (c :: acc)

/-- Python `str.split()` (whitespace split). -/
def pySplit (s : String) : List String :=
  (wordsAux s.data []).map (fun l => ⟨l⟩)

/-- Association-list lookup (Python `dict.get`). -/
def alookup {α β : Type} [DecidableEq α] (k : α) : List (α × β) → Option β
  | [] => none
  | (a, b) :: rest => if a = k then some b else alookup k rest

/-- Association-list update (Python `dict[k] = v`). -/
def aset {α β : Type} [DecidableEq α] (k : α) (v : β) (d : List (α × β)) :
    List (α × β) :=
  d.filter (fun p => decide (p.1 ≠ k)) ++ [(k, v)]

/-- Association-list removal (Python `del dict[k]` / `dict.pop`). -/
def aerase {α β : Type} [DecidableEq α] (k : α) (d : List (α × β)) :
    List (α × β) :=
  d.filter (fun p => decide (p.1 ≠ k))

/-- Python truthy `or` chain on optional integers, as in
`goal_event.minute or match.minute or 0` (both `None` and `0` are falsy). -/
def pyOrMinute (a b : Option ℤ) : ℤ :=
  match a with
  | some v => if v ≠ 0 then v else (match b with
      | some w => if w ≠ 0 then w else 0
      | none => 0)
  | none => match b with
      | some w => if w ≠ 0 then w else 0
      | none => 0

/-! ## Data model

`core/models.py` is not present under `src/`; the record and enum shapes
below are modelled from the spec (§3 DATA MODEL) and from how the fields
are read and written by the code that is present. -/

/-- Modelled from the spec: lifecycle status of a soccer Match
(`core/models.py` is absent from the sources). -/
inductive MatchStatus
  | not_started | first_half | halftime | second_half | live
  | finished | cancelled | postponed | abandoned
deriving DecidableEq, Repr

/-- Modelled from the spec: order side. -/
inductive OrderSide
  | buy | sell
deriving DecidableEq, Repr

/-- Modelled from the spec: order lifecycle status
(pending → submitted → filled | rejected | cancelled). -/
inductive OrderStatus
  | pending | submitted | filled | rejected | cancelled
deriving DecidableEq, Repr

/-- Modelled from the spec: position status (the `opened` constructor
stands for the source's `OPEN`, a reserved word here). -/
inductive PositionStatus
  | opened | closed
deriving DecidableEq, Repr

/-- Modelled from the spec: a team (identity and display name). -/
structure Team where
  id : ℤ
  name : String
deriving DecidableEq, Repr

/-- Modelled from the spec: mutable snapshot of a live contest. -/
structure Match where
  id : ℤ
  homeTeam : Team
  awayTeam : Team
  homeScore : ℤ
  awayScore : ℤ
  status : MatchStatus
  minute : Option ℤ
deriving DecidableEq, Repr

/-- Modelled from the spec: `Match.display_name`. -/
def Match.displayName (m : Match) : String :=
  m.homeTeam.name ++ " vs " ++ m.awayTeam.name

/-- Modelled from the spec: an immutable scoring event. -/
structure GoalEvent where
  id : String
  matchId : ℤ
  scoringTeamId : ℤ
  scoringTeamName : String
  minute : Option ℤ
  homeScore : ℤ
  awayScore : ℤ
deriving DecidableEq, Repr

/-- Modelled from the spec: an exchange-quoted market contract. -/
structure Market where
  id : String
  title : String
  exchange : String
  yesPrice : ℚ
  noPrice : ℚ
  yesVolume : ℚ
  noVolume : ℚ
  status : String
deriving DecidableEq, Repr

/-- Modelled from the spec: links a contest to its markets and the
pre-event implied probabilities for each side. -/
structure MatchMarketMapping where
  matchId : ℤ
  markets : List Market
  preGoalHomeProb : Option ℚ
  preGoalAwayProb : Option ℚ
deriving DecidableEq, Repr

/-- Modelled from the spec: an unsized, unapproved proposed trade. -/
structure OrderIntent where
  id : String
  matchId : ℤ
  marketId : String
  exchange : String
  side : OrderSide
  outcome : String
  size : ℚ
  limitPrice : ℚ
  reason : String
  goalEventId : String
deriving DecidableEq, Repr

/-- Modelled from the spec: the executor's record of one submission. -/
structure Order where
  id : String
  intentId : String
  matchId : ℤ
  marketId : String
  exchange : String
  side : OrderSide
  outcome : String
  size : ℚ
  limitPrice : ℚ
  status : OrderStatus
  exchangeOrderId : Option String := none
  submittedAt : Option ℚ := none
  filledAt : Option ℚ := none
  filledSize : Option ℚ := none
  avgFillPrice : Option ℚ := none
  errorMessage : Option String := none
deriving DecidableEq, Repr

/-- Modelled from the spec: an open or closed holding. -/
structure Position where
  id : String
  matchId : ℤ
  marketId : String
  exchange : String
  outcome : String
  size : ℚ
  entryPrice : ℚ
  currentPrice : ℚ
  status : PositionStatus
  openedAt : ℚ
  entryOrderId : String
  closedAt : Option ℚ := none
  exitOrderId : Option String := none
  realizedPnl : ℚ := 0
  unrealizedPnl : ℚ := 0
deriving DecidableEq, Repr

/-- Modelled from the spec: the audit-trail twin of a Position. -/
structure Trade where
  id : String
  matchId : ℤ
  matchName : String
  marketId : String
  exchange : String
  outcome : String
  entryPrice : ℚ
  size : ℚ
  entryTime : ℚ
  goalEventId : String
  reason : String
  exitPrice : Option ℚ := none
  exitTime : Option ℚ := none
  pnl : ℚ := 0
  pnlPct : ℚ := 0
deriving DecidableEq, Repr

/-- Modelled from the spec: read-only snapshot of the Risk Manager. -/
structure RiskStatus where
  dailyPnl : ℚ
  dailyLossLimit : ℚ
  dailyLossRemaining : ℚ
  currentExposure : ℚ
  maxExposure : ℚ
  consecutiveErrors : ℕ
  circuitBreakerActive : Bool
  lastError : Option String
deriving DecidableEq, Repr

/-! ## Risk Manager (`core/risk_manager.py`)

The class's configuration and mutable state together form `RiskState`;
each method returns its result paired with the updated state. Methods
that call `date.today()` take the current calendar date as a `today`
parameter (an abstract day number). -/

/-- Configuration plus mutable state of `RiskManager.__init__`
(`max_per_trade_pct` is already divided by 100, as in the source). -/
structure RiskState where
  bankroll : ℚ
  maxPerTradePct : ℚ
  dailyLossLimit : ℚ
  perMatchMaxExposure : ℚ
  maxConsecutiveErrors : ℕ
  dailyPnl : ℚ := 0
  currentDate : ℤ
  matchExposure : List (ℤ × ℚ) := []
  consecutiveErrors : ℕ := 0
  circuitBreakerActive : Bool := false
  lastError : Option String := none
  openPositions : List Position := []
deriving DecidableEq, Repr

namespace RiskManager

/-- Embeds `RiskManager._reset_daily_if_needed`. -/
def reset_daily_if_needed (st : RiskState) (today : ℤ) : RiskState :=
  if today ≠ st.currentDate then
    { st with dailyPnl := 0, currentDate := today, matchExposure := [] }
  else st

/-- Embeds `RiskManager.get_status`. -/
def get_status (st : RiskState) (today : ℤ) : RiskStatus × RiskState :=
  let st1 := reset_daily_if_needed st today
  let totalExposure := (st1.matchExposure.map (fun p => p.2)).sum
  ({ dailyPnl := st1.dailyPnl
     dailyLossLimit := st1.dailyLossLimit
     dailyLossRemaining := st1.dailyLossLimit + st1.dailyPnl
     currentExposure := totalExposure
     maxExposure := st1.perMatchMaxExposure * 10
     consecutiveErrors := st1.consecutiveErrors
     circuitBreakerActive := st1.circuitBreakerActive
     lastError := st1.lastError }, st1)

/-- Embeds `RiskManager.calculate_position_size`. -/
def calculate_position_size (st : RiskState) (today : ℤ) (intent : OrderIntent) :
    ℚ × RiskState :=
  let st1 := reset_daily_if_needed st today
  let baseSize := st1.bankroll * st1.maxPerTradePct
  let dailyRemaining := st1.dailyLossLimit + st1.dailyPnl
  let baseSize := if dailyRemaining < baseSize then max 0 dailyRemaining else baseSize
  let currentMatchExposure := (alookup intent.matchId st1.matchExposure).getD 0
  let matchRemaining := st1.perMatchMaxExposure - currentMatchExposure
  let baseSize := if matchRemaining < baseSize then max 0 matchRemaining else baseSize
  (round2 baseSize, st1)

/-- Embeds `RiskManager.check_trade_allowed`. -/
def check_trade_allowed (st : RiskState) (today : ℤ) (intent : OrderIntent) :
    (Bool × String) × RiskState :=
  let st1 := reset_daily_if_needed st today
  if st1.circuitBreakerActive then
    ((false, "Circuit breaker active after " ++ toString st1.consecutiveErrors ++
      " consecutive errors"), st1)
  else if st1.dailyPnl ≤ -st1.dailyLossLimit then
    ((false, "Daily loss limit reached ($" ++ fmt2 st1.dailyPnl ++ ")"), st1)
  else
    let currentMatchExposure := (alookup intent.matchId st1.matchExposure).getD 0
    if st1.perMatchMaxExposure ≤ currentMatchExposure then
      ((false, "Per-match exposure limit reached ($" ++
        fmt2 currentMatchExposure ++ ")"), st1)
    else
      let (size, st2) := calculate_position_size st1 today intent
      if size < 1 then
        ((false, "Position size too small ($" ++ fmt2 size ++ ")"), st2)
      else
        ((true, "Trade allowed"), st2)

/-- Embeds `RiskManager.approve_trade`. -/
def approve_trade (st : RiskState) (today : ℤ) (intent : OrderIntent) :
    (Option OrderIntent × String) × RiskState :=
  let ((allowed, reason), st1) := check_trade_allowed st today intent
  if !allowed then
    ((none, reason), st1)
  else
    let (size, st2) := calculate_position_size st1 today intent
    ((some { intent with size := size },
      "Approved with size $" ++ fmt2 size), st2)

/-- Embeds `RiskManager.record_trade_result`. -/
def record_trade_result (st : RiskState) (today : ℤ) (matchId : ℤ)
    (pnl exposureChange : ℚ) : RiskState :=
  let st1 := reset_daily_if_needed st today
  let st2 := { st1 with dailyPnl := st1.dailyPnl + pnl }
  let currentExposure := (alookup matchId st2.matchExposure).getD 0
  let newExposure := aset matchId (max 0 (currentExposure + exposureChange))
    st2.matchExposure
  { st2 with matchExposure := newExposure }

/-- Embeds `RiskManager.record_error` (never consults the date). -/
def record_error (st : RiskState) (errorMessage : String) : RiskState :=
  let st1 := { st with consecutiveErrors := st.consecutiveErrors + 1,
                       lastError := some errorMessage }
  if st1.maxConsecutiveErrors ≤ st1.consecutiveErrors then
    { st1 with circuitBreakerActive := true }
  else st1

/-- Embeds `RiskManager.record_success` (never consults the date). -/
def record_success (st : RiskState) : RiskState :=
  { st with consecutiveErrors := 0 }

/-- Embeds `RiskManager.reset_circuit_breaker`. -/
def reset_circuit_breaker (st : RiskState) : RiskState :=
  { st with circuitBreakerActive := false, consecutiveErrors := 0,
            lastError := none }

/-- Embeds `RiskManager.update_bankroll`. -/
def update_bankroll (st : RiskState) (newBankroll : ℚ) : RiskState :=
  { st with bankroll := newBankroll }

/-- Embeds `RiskManager.add_position`. -/
def add_position (st : RiskState) (position : Position) : RiskState :=
  { st with
    openPositions := st.openPositions ++ [position]
    matchExposure :=
      aset position.matchId
        ((alookup position.matchId st.matchExposure).getD 0 + position.size)
        st.matchExposure }

end RiskManager

/-- Risk state built from the configuration defaults of
`config/settings.py` (`bankroll` 10000, `max_per_trade_pct` 0.5 → 0.005,
`daily_loss_limit` 500, `per_match_max_exposure` 200,
`max_consecutive_errors` 5), with a given start date. -/
def defaultRiskState (d : ℤ) : RiskState :=
  { bankroll := 10000
    maxPerTradePct := 5/1000
    dailyLossLimit := 500
    perMatchMaxExposure := 200
    maxConsecutiveErrors := 5
    currentDate := d }

/-! ## Decision Engine (`core/decision_engine.py`)

Pure apart from the generated intent UUID, which is a parameter. -/

/-- Tunable thresholds held by `DecisionEngine.__init__`. -/
structure EngineCfg where
  underdogThreshold : ℚ
  minLiquidity : ℚ
  maxPriceAfterGoal : ℚ := 13/20
  minTimeRemaining : ℤ := 15
deriving DecidableEq, Repr

/-- Engine configuration from the `config/settings.py` defaults
(`underdog_threshold` 0.5, `min_liquidity` 100). -/
def defaultEngineCfg : EngineCfg :=
  { underdogThreshold := 1/2, minLiquidity := 100 }

namespace DecisionEngine

/-- Embeds `DecisionEngine.is_underdog`. -/
def is_underdog (cfg : EngineCfg) (teamId : ℤ) (mtch : Match)
    (mapping : MatchMarketMapping) : Bool × Option ℚ :=
  let isHome := teamId = mtch.homeTeam.id
  let preProb := if isHome then mapping.preGoalHomeProb else mapping.preGoalAwayProb
  match preProb with
  | none => (!(decide isHome), none)
  | some p => (p < cfg.underdogThreshold, some p)

/-- Candidate filter of `DecisionEngine.find_best_market`: the market
title (lowercased) contains the team name or one of its aliases.
Python's `team_lower.split()[0]` raises on an empty name; team names are
non-empty, and the empty case is modelled as the empty string. -/
def marketTitleMatches (teamLower : String) (titleLower : String) : Bool :=
  pyContains titleLower teamLower ||
    (([pyReplace teamLower " fc" "", (pySplit teamLower).headD ""]).any
      (fun al => pyContains titleLower al))

/-- Scoring heuristic of `DecisionEngine.find_best_market` for one
candidate market. -/
def marketScore (cfg : EngineCfg) (titleLower : String) (m : Market) : ℤ :=
  let s : ℤ := 1
  let s := if pyContains titleLower "win" then s + 2 else s
  let s := if m.status = "open" then s + 1 else s
  if cfg.minLiquidity < m.yesVolume then s + 1 else s

/-- Embeds `DecisionEngine.find_best_market` (fold over the mapping's
markets; a candidate replaces the incumbent only with a strictly larger
score, so ties keep the first-encountered market). -/
def find_best_market (cfg : EngineCfg) (teamId : ℤ) (mtch : Match)
    (mapping : MatchMarketMapping) : Option Market :=
  let isHome := teamId = mtch.homeTeam.id
  let teamName := if isHome then mtch.homeTeam.name else mtch.awayTeam.name
  let teamLower := pyLower teamName
  let step := fun (acc : Option Market × ℤ) (m : Market) =>
    let titleLower := pyLower m.title
    if marketTitleMatches teamLower titleLower then
      let score := marketScore cfg titleLower m
      if acc.2 < score then (some m, score) else acc
    else acc
  (mapping.markets.foldl step (none, 0)).1

/-- Embeds `DecisionEngine.check_value`. -/
def check_value (cfg : EngineCfg) (m : Market) (preGoalProb : Option ℚ) :
    Bool × String :=
  let currentPrice := m.yesPrice
  if cfg.maxPriceAfterGoal < currentPrice then
    (false, "Price too high (" ++ fmt2 currentPrice ++ " > " ++
      toString cfg.maxPriceAfterGoal ++ ")")
  else
    let expectedMove : ℚ := 10/100
    match preGoalProb with
    | some p =>
      if currentPrice < p + expectedMove then
        (true, "Value found: current " ++ fmt2 currentPrice ++ " < expected " ++
          fmt2 (p + expectedMove))
      else if currentPrice < 50/100 then
        (true, "Price still below 50% (" ++ fmt2 currentPrice ++ ")")
      else
        (false, "No clear value at current price (" ++ fmt2 currentPrice ++ ")")
    | none =>
      if currentPrice < 50/100 then
        (true, "Price still below 50% (" ++ fmt2 currentPrice ++ ")")
      else
        (false, "No clear value at current price (" ++ fmt2 currentPrice ++ ")")

/-- Embeds `DecisionEngine.check_liquidity`. -/
def check_liquidity (cfg : EngineCfg) (m : Market) : Bool × String :=
  let totalVolume := m.yesVolume + m.noVolume
  if totalVolume < cfg.minLiquidity then
    (false, "Insufficient liquidity (" ++ toString totalVolume ++ " < " ++
      toString cfg.minLiquidity ++ ")")
  else
    (true, "Liquidity OK (" ++ toString totalVolume ++ ")")

/-- Embeds `DecisionEngine.check_time_remaining`. -/
def check_time_remaining (cfg : EngineCfg) (mtch : Match) (goal : GoalEvent) :
    Bool × String :=
  let minute := pyOrMinute goal.minute mtch.minute
  let timeRemaining := 90 - minute
  if timeRemaining < cfg.minTimeRemaining then
    (false, "Not enough time remaining (" ++ toString timeRemaining ++ " < " ++
      toString cfg.minTimeRemaining ++ " mins)")
  else
    (true, "Time remaining OK (" ++ toString timeRemaining ++ " mins)")

/-- Embeds `DecisionEngine.evaluate_goal`; the generated intent UUID is
the `intentId` parameter. -/
def evaluate_goal (cfg : EngineCfg) (goal : GoalEvent) (mtch : Match)
    (mapping : MatchMarketMapping) (intentId : String) : Option OrderIntent :=
  let (isUnderdog, preProb) := is_underdog cfg goal.scoringTeamId mtch mapping
  if !isUnderdog then none
  else
    match find_best_market cfg goal.scoringTeamId mtch mapping with
    | none => none
    | some market =>
      let (hasValue, valueReason) := check_value cfg market preProb
      if !hasValue then none
      else
        let (hasLiquidity, liquidityReason) := check_liquidity cfg market
        if !hasLiquidity then none
        else
          let (timeOk, timeReason) := check_time_remaining cfg mtch goal
          if !timeOk then none
          else
            let preProbStr := match preProb with
              | some p => fmt2 p
              | none => "N/A"
            let reason := "Underdog " ++ goal.scoringTeamName ++ " scored. " ++
              "Pre-goal prob: " ++ preProbStr ++ ". " ++ valueReason ++ ". " ++
              liquidityReason ++ ". " ++ timeReason ++ "."
            some
              { id := intentId
                matchId := mtch.id
                marketId := market.id
                exchange := market.exchange
                side := OrderSide.buy
                outcome := "yes"
                size := 0
                limitPrice := market.yesPrice + 2/100
                reason := reason
                goalEventId := goal.id }

end DecisionEngine

/-! ## State Manager (`core/state.py`)

Only the soccer-side state used by the claims is modelled; the NFL
mirrors of these fields and the derived `TradingMetrics` recomputation
(`_update_metrics`, purely observational aggregates) are omitted. -/

/-- Mutable state of `StateManager.__init__`. -/
structure LedgerState where
  matchesMap : List (ℤ × Match) := []
  matchMappings : List (ℤ × MatchMarketMapping) := []
  processedGoals : List String := []
  goalHistory : List GoalEvent := []
  openPositions : List (String × Position) := []
  closedPositions : List Position := []
  trades : List Trade := []
  latencies : List ℚ := []
deriving DecidableEq, Repr

/-- Association-list in-place update, keeping the entry's slot. -/
def aupdate {α β : Type} [DecidableEq α] (k : α) (f : β → β) :
    List (α × β) → List (α × β)
  | [] => []
  | (a, b) :: rest =>
    if a = k then (a, f b) :: rest else (a, b) :: aupdate k f rest

namespace StateManager

/-- Embeds `StateManager.get_match`. -/
def get_match (st : LedgerState) (matchId : ℤ) : Option Match :=
  alookup matchId st.matchesMap

/-- Embeds `StateManager.set_mapping`. -/
def set_mapping (st : LedgerState) (matchId : ℤ) (mapping : MatchMarketMapping) :
    LedgerState :=
  { st with matchMappings := aset matchId mapping st.matchMappings }

/-- Embeds `StateManager.get_mapping`. -/
def get_mapping (st : LedgerState) (matchId : ℤ) : Option MatchMarketMapping :=
  alookup matchId st.matchMappings

/-- Embeds `StateManager.is_goal_processed`. -/
def is_goal_processed (st : LedgerState) (goalId : String) : Bool :=
  st.processedGoals.contains goalId

/-- Embeds `StateManager.mark_goal_processed`. -/
def mark_goal_processed (st : LedgerState) (goal : GoalEvent) : LedgerState :=
  { st with
    processedGoals :=
      if st.processedGoals.contains goal.id then st.processedGoals
      else st.processedGoals ++ [goal.id]
    goalHistory := st.goalHistory ++ [goal] }

/-- Embeds `StateManager.add_position` (metrics recomputation omitted). -/
def add_position (st : LedgerState) (position : Position) : LedgerState :=
  { st with openPositions := aset position.id position st.openPositions }

/-- Embeds `StateManager.get_position`. -/
def get_position (st : LedgerState) (positionId : String) : Option Position :=
  alookup positionId st.openPositions

/-- Embeds `StateManager.get_open_positions`. -/
def get_open_positions (st : LedgerState) : List Position :=
  st.openPositions.map (fun p => p.2)

/-- Embeds `StateManager.close_position`; `now` models
`datetime.utcnow()`. -/
def close_position (st : LedgerState) (positionId : String) (exitPrice : ℚ)
    (exitOrderId : String) (now : ℚ) : Option Position × LedgerState :=
  match alookup positionId st.openPositions with
  | none => (none, st)
  | some position =>
    let realized :=
      if position.outcome = "yes" then
        (exitPrice - position.entryPrice) * position.size
      else
        (position.entryPrice - exitPrice) * position.size
    let closed := { position with
      status := PositionStatus.closed
      currentPrice := exitPrice
      closedAt := some now
      exitOrderId := some exitOrderId
      realizedPnl := realized }
    (some closed,
      { st with
        openPositions := aerase positionId st.openPositions
        closedPositions := st.closedPositions ++ [closed] })

/-- Embeds `StateManager.update_position_price`. -/
def update_position_price (st : LedgerState) (positionId : String)
    (currentPrice : ℚ) : LedgerState :=
  match alookup positionId st.openPositions with
  | none => st
  | some position =>
    let unrealized :=
      if position.outcome = "yes" then
        (currentPrice - position.entryPrice) * position.size
      else
        (position.entryPrice - currentPrice) * position.size
    let updated := { position with
      currentPrice := currentPrice
      unrealizedPnl := unrealized }
    { st with openPositions := aupdate positionId (fun _ => updated) st.openPositions }

/-- Embeds `StateManager.add_trade` (metrics recomputation omitted). -/
def add_trade (st : LedgerState) (trade : Trade) : LedgerState :=
  { st with trades := st.trades ++ [trade] }

/-- Embeds `StateManager.get_trades` (`trades[-limit:]`). -/
def get_trades (st : LedgerState) (limit : ℕ := 100) : List Trade :=
  st.trades.drop (st.trades.length - limit)

/-- Embeds `StateManager.record_latency` (metrics recomputation omitted). -/
def record_latency (st : LedgerState) (latencyMs : ℚ) : LedgerState :=
  { st with latencies := st.latencies ++ [latencyMs] }

end StateManager

/-! ## Post-Trade Manager (`core/post_trade.py`) -/

/-- Thresholds held by `PostTradeManager.__init__`. -/
structure PostTradeCfg where
  takeProfitPct : ℚ
  stopLossPct : ℚ
  maxPositionTimeMins : ℚ := 90
deriving DecidableEq, Repr

/-- Post-trade configuration from the `config/settings.py` defaults
(`take_profit_pct` 0.15, `stop_loss_pct` 0.10). -/
def defaultPostTradeCfg : PostTradeCfg :=
  { takeProfitPct := 15/100, stopLossPct := 10/100 }

namespace PostTrade

/-- Embeds `PostTradeManager.calculate_pnl`, returning
`(pnl_dollars, pnl_percent)`. -/
def calculate_pnl (entryPrice exitPrice size : ℚ) (outcome : String) :
    ℚ × ℚ :=
  let pnlPct :=
    if pyLower outcome = "yes" then
      if 0 < entryPrice then (exitPrice - entryPrice) / entryPrice else 0
    else
      if 0 < entryPrice then (entryPrice - exitPrice) / entryPrice else 0
  (size * pnlPct, pnlPct * 100)

/-- Embeds `PostTradeManager.calculate_unrealized_pnl`. -/
def calculate_unrealized_pnl (position : Position) : ℚ × ℚ :=
  calculate_pnl position.entryPrice position.currentPrice position.size
    position.outcome

/-- Embeds `PostTradeManager.check_take_profit`. -/
def check_take_profit (cfg : PostTradeCfg) (position : Position) : Bool :=
  let pnlPct := (calculate_unrealized_pnl position).2
  cfg.takeProfitPct * 100 ≤ pnlPct

/-- Embeds `PostTradeManager.check_stop_loss`. -/
def check_stop_loss (cfg : PostTradeCfg) (position : Position) : Bool :=
  let pnlPct := (calculate_unrealized_pnl position).2
  pnlPct ≤ -(cfg.stopLossPct * 100)

/-- Embeds `PostTradeManager.check_time_exit`; `now` models
`datetime.utcnow()`, in seconds. -/
def check_time_exit (cfg : PostTradeCfg) (position : Position) (now : ℚ) :
    Bool :=
  let timeOpen := (now - position.openedAt) / 60
  cfg.maxPositionTimeMins ≤ timeOpen

/-- Embeds `PostTradeManager.check_match_ended`; the
`state_manager.get_match` lookup result is the parameter. -/
def check_match_ended (mtchOpt : Option Match) : Bool :=
  match mtchOpt with
  | none => false
  | some m =>
    m.status = MatchStatus.finished ∨ m.status = MatchStatus.cancelled ∨
      m.status = MatchStatus.abandoned ∨ m.status = MatchStatus.postponed

/-- Embeds `PostTradeManager.get_exit_reason`. -/
def get_exit_reason (cfg : PostTradeCfg) (position : Position) (now : ℚ)
    (mtchOpt : Option Match) : Option String :=
  if check_take_profit cfg position then some "take_profit"
  else if check_stop_loss cfg position then some "stop_loss"
  else if check_time_exit cfg position now then some "time_exit"
  else if check_match_ended mtchOpt then some "match_ended"
  else none

end PostTrade

/-! ## Order Executor (`core/order_executor.py`)

The exchange collaborator call (`kalshi_client.place_order`, reached via
`_execute_kalshi`) is modelled by a `submitResult` parameter: a raised
fault is `Except.error msg` (the exception's string), a `None` response
is `Except.ok none`, and a response dict is `Except.ok (some r)` with the
dict's `.get` keys as optional fields. `t0`/`t1` model the two
`datetime.utcnow()` readings. -/

/-- Relevant keys of the exchange response dict. -/
structure KalshiResult where
  orderId : Option String := none
  status : Option String := none
  avgPrice : Option ℚ := none
deriving DecidableEq, Repr

/-- Mutable state of `OrderExecutor.__init__`. -/
structure ExecState where
  pending : List (String × Order) := []
  completed : List Order := []
deriving DecidableEq, Repr

namespace OrderExecutor

/-- Embeds the `finally` block of `OrderExecutor.execute`: drop the order
from the pending working set and append it to the completed history. -/
def finalize (es : ExecState) (pending1 : List (String × Order))
    (orderId : String) (finalOrder : Order) : ExecState :=
  { pending := aerase orderId pending1
    completed := es.completed ++ [finalOrder] }

/-- Embeds `OrderExecutor.execute`; the generated order UUID is the
`orderId` parameter. The function is total: a collaborator fault
(`Except.error`) is converted into a rejected order, never re-raised. -/
def execute (es : ExecState) (intent : OrderIntent) (orderId : String)
    (submitResult : Except String (Option KalshiResult)) (t0 t1 : ℚ) :
    (Option Order × String) × ExecState :=
  let order0 : Order :=
    { id := orderId
      intentId := intent.id
      matchId := intent.matchId
      marketId := intent.marketId
      exchange := intent.exchange
      side := intent.side
      outcome := intent.outcome
      size := intent.size
      limitPrice := intent.limitPrice
      status := OrderStatus.pending }
  let pending1 := aset orderId order0 es.pending
  if intent.exchange = "kalshi" then
    match submitResult with
    | Except.error e =>
      let o := { order0 with status := OrderStatus.rejected,
                             errorMessage := some e }
      ((some o, "Execution error: " ++ e), finalize es pending1 orderId o)
    | Except.ok result =>
      let latencyMs := (t1 - t0) * 1000
      match result with
      | some r =>
        let o1 := { order0 with
          exchangeOrderId := r.orderId
          status := OrderStatus.submitted
          submittedAt := some t1 }
        let o2 :=
          if r.status = some "filled" then
            { o1 with
              status := OrderStatus.filled
              filledAt := some t1
              filledSize := some intent.size
              avgFillPrice := some (r.avgPrice.getD intent.limitPrice) }
          else o1
        ((some o2, "Order submitted successfully (latency: " ++
          fmt0 latencyMs ++ "ms)"), finalize es pending1 orderId o2)
      | none =>
        let o := { order0 with status := OrderStatus.rejected,
                               errorMessage := some "Exchange rejected order" }
        ((some o, "Order rejected by exchange"), finalize es pending1 orderId o)
  else
    ((none, "Unknown exchange: " ++ intent.exchange),
      finalize es pending1 orderId order0)

/-- Embeds `OrderExecutor.get_pending_orders`. -/
def get_pending_orders (es : ExecState) : List Order :=
  es.pending.map (fun p => p.2)

/-- Embeds `OrderExecutor.get_completed_orders`. -/
def get_completed_orders (es : ExecState) (limit : ℕ := 100) : List Order :=
  es.completed.drop (es.completed.length - limit)

/-- Embeds `OrderExecutor.get_order`. -/
def get_order (es : ExecState) (orderId : String) : Option Order :=
  match alookup orderId es.pending with
  | some o => some o
  | none => es.completed.find? (fun o => o.id = orderId)

end OrderExecutor

/-! ## Trade Service (`services/trade_service.py`) and Goal Listener
(`services/goal_listener.py`)

The pipeline mutates the State Manager, the Risk Manager and the Order
Executor, combined here into one system state. External collaborator
results (`market_mapper.create_mapping`, the exchange submission) and the
generated UUIDs are parameters. All `datetime.utcnow()` readings inside
one invocation are modelled by the invocation's start/end instants. -/

/-- Combined state of the singleton services used by the pipeline. -/
structure SysState where
  sm : LedgerState := {}
  rm : RiskState
  ex : ExecState := {}
  enabled : Bool := true
deriving DecidableEq, Repr

/-- Python truthy `a or b` on an optional rational against a default
(`order.avg_fill_price or order.limit_price`: both `None` and `0.0` are
falsy). -/
def pyOrQ (a : Option ℚ) (b : ℚ) : ℚ :=
  match a with
  | some v => if v ≠ 0 then v else b
  | none => b

/-- Update the first list entry satisfying `p` (Python's
`for ...: if ...: mutate; break` over a trade list). -/
def updateFirst (p : Trade → Bool) (f : Trade → Trade) : List Trade → List Trade
  | [] => []
  | t :: rest => if p t then f t :: rest else t :: updateFirst p f rest

namespace TradeService

/-- Embeds `TradeService.process_goal`. Parameters beyond the state:
the goal/match pair handed in by the listener, the mapping the external
`market_mapper.create_mapping` would produce (consulted only on a cache
miss), the four generated UUIDs, the exchange submission result, and the
pipeline start/end instants. Monitoring calls are observational and
omitted; the surrounding `try/except` can only fire on modelled fault
paths, which are all converted to results. -/
def process_goal (sys : SysState) (goal : GoalEvent) (mtch : Match)
    (createdMapping : MatchMarketMapping)
    (intentId orderId positionId tradeId : String)
    (submitResult : Except String (Option KalshiResult))
    (pipelineStart pipelineEnd : ℚ) (today : ℤ) : Option Trade × SysState :=
  let (mapping, sm1) :=
    match StateManager.get_mapping sys.sm mtch.id with
    | some m => (m, sys.sm)
    | none => (createdMapping,
        StateManager.set_mapping sys.sm mtch.id createdMapping)
  let sys1 := { sys with sm := sm1 }
  if mapping.markets = [] then (none, sys1)
  else
    match DecisionEngine.evaluate_goal defaultEngineCfg goal mtch mapping
        intentId with
    | none => (none, sys1)
    | some intent =>
      let ((approvedOpt, _riskReason), rm1) :=
        RiskManager.approve_trade sys1.rm today intent
      let sys2 := { sys1 with rm := rm1 }
      match approvedOpt with
      | none => (none, sys2)
      | some approved =>
        if !sys2.enabled then (none, sys2)
        else
          let ((orderOpt, execMsg), ex1) :=
            OrderExecutor.execute sys2.ex approved orderId submitResult
              pipelineStart pipelineEnd
          let sys3 := { sys2 with ex := ex1 }
          match orderOpt with
          | none => (none, { sys3 with rm := RiskManager.record_error sys3.rm execMsg })
          | some order =>
            if order.status = OrderStatus.rejected ∨
                order.status = OrderStatus.cancelled then
              (none, { sys3 with rm := RiskManager.record_error sys3.rm execMsg })
            else
              let rm2 := RiskManager.record_success sys3.rm
              let entryPrice := pyOrQ order.avgFillPrice order.limitPrice
              let position : Position :=
                { id := positionId
                  matchId := mtch.id
                  marketId := order.marketId
                  exchange := order.exchange
                  outcome := order.outcome
                  size := order.size
                  entryPrice := entryPrice
                  currentPrice := entryPrice
                  status := PositionStatus.opened
                  openedAt := pipelineEnd
                  entryOrderId := order.id }
              let sm2 := StateManager.add_position sys3.sm position
              let rm3 := RiskManager.add_position rm2 position
              let trade : Trade :=
                { id := tradeId
                  matchId := mtch.id
                  matchName := mtch.displayName
                  marketId := order.marketId
                  exchange := order.exchange
                  outcome := order.outcome
                  entryPrice := position.entryPrice
                  size := order.size
                  entryTime := pipelineEnd
                  goalEventId := goal.id
                  reason := approved.reason }
              let sm3 := StateManager.add_trade sm2 trade
              let latencyMs := (pipelineEnd - pipelineStart) * 1000
              let sm4 := StateManager.record_latency sm3 latencyMs
              (some trade, { sys3 with sm := sm4, rm := rm3 })

/-- Embeds `TradeService.close_position`. -/
def close_position (sys : SysState) (positionId : String)
    (reason : String) (intentId orderId : String)
    (submitResult : Except String (Option KalshiResult))
    (t0 t1 : ℚ) (today : ℤ) : Option Position × SysState :=
  match StateManager.get_position sys.sm positionId with
  | none => (none, sys)
  | some position =>
    let intent : OrderIntent :=
      { id := intentId
        matchId := position.matchId
        marketId := position.marketId
        exchange := position.exchange
        side := OrderSide.sell
        outcome := position.outcome
        size := position.size
        limitPrice := position.currentPrice - 2/100
        reason := "Close position: " ++ reason
        goalEventId := "" }
    let ((orderOpt, _message), ex1) :=
      OrderExecutor.execute sys.ex intent orderId submitResult t0 t1
    let sys1 := { sys with ex := ex1 }
    match orderOpt with
    | none => (none, sys1)
    | some order =>
      if order.status ≠ OrderStatus.rejected then
        let exitPrice := pyOrQ order.avgFillPrice position.currentPrice
        let (closedOpt, sm1) :=
          StateManager.close_position sys1.sm positionId exitPrice order.id t1
        match closedOpt with
        | none => (none, { sys1 with sm := sm1 })
        | some closed =>
          let sliceStart := sm1.trades.length - 100
          let updatedSlice :=
            updateFirst
              (fun t => decide (t.matchId = position.matchId) && decide (t.exitTime = none))
              (fun t =>
                { t with
                  exitPrice := some exitPrice
                  exitTime := some t1
                  pnl := closed.realizedPnl
                  pnlPct :=
                    if 0 < t.entryPrice then
                      (exitPrice - t.entryPrice) / t.entryPrice * 100
                    else 0 })
              (sm1.trades.drop sliceStart)
          let sm2 := { sm1 with trades := sm1.trades.take sliceStart ++ updatedSlice }
          let rm1 := RiskManager.record_trade_result sys1.rm today
            position.matchId closed.realizedPnl (-position.size)
          (some closed, { sys1 with sm := sm2, rm := rm1 })
      else
        (none, sys1)

/-- Embeds the per-position exit decision of
`TradeService.check_exit_conditions` (lines 268-303): the unrealized
percentage is computed directly from current and entry price, with no
outcome sign flip, and the first triggered reason wins. -/
def exit_decision (takeProfitPct stopLossPct : ℚ) (position : Position)
    (now : ℚ) : Option String :=
  let pnlPct :=
    if 0 < position.entryPrice then
      (position.currentPrice - position.entryPrice) / position.entryPrice
    else 0
  if takeProfitPct ≤ pnlPct then some "take_profit"
  else if pnlPct ≤ -stopLossPct then some "stop_loss"
  else
    let timeOpen := (now - position.openedAt) / 60
    if 90 < timeOpen then some "time_exit"
    else none

end TradeService

namespace GoalListener

/-- Embeds the per-goal body of `GoalListener._poll_loop` (lines 75-93):
skip the goal when its id is already processed; otherwise, when the match
is known, mark the goal processed and hand it to the registered callback
(`TradeService.process_goal`). -/
def handle_goal (sys : SysState) (goal : GoalEvent)
    (createdMapping : MatchMarketMapping)
    (intentId orderId positionId tradeId : String)
    (submitResult : Except String (Option KalshiResult))
    (pipelineStart pipelineEnd : ℚ) (today : ℤ) : SysState :=
  if StateManager.is_goal_processed sys.sm goal.id then sys
  else
    match StateManager.get_match sys.sm goal.matchId with
    | none => sys
    | some mtch =>
      let sys1 := { sys with sm := StateManager.mark_goal_processed sys.sm goal }
      (TradeService.process_goal sys1 goal mtch createdMapping intentId orderId
        positionId tradeId submitResult pipelineStart pipelineEnd today).2

end GoalListener

/-! ## Concrete fixtures used by the theorems below -/

/-- Home team of the worked scenario. -/
def teamLeeds : Team := { id := 10, name := "Leeds" }

/-- Away team of the worked scenario. -/
def teamChelsea : Team := { id := 20, name := "Chelsea" }

/-- A live match in its first half, minute 30. -/
def match0 : Match :=
  { id := 1, homeTeam := teamLeeds, awayTeam := teamChelsea,
    homeScore := 1, awayScore := 0, status := MatchStatus.first_half,
    minute := some 30 }

/-- A goal scored by the home side of `match0`. -/
def goal0 : GoalEvent :=
  { id := "g1", matchId := 1, scoringTeamId := 10, scoringTeamName := "Leeds",
    minute := some 30, homeScore := 1, awayScore := 0 }

/-- An open, liquid market on the scoring team quoted at 0.35. -/
def market0 : Market :=
  { id := "MKT-LEEDS", title := "Leeds win", exchange := "kalshi",
    yesPrice := 35/100, noPrice := 65/100, yesVolume := 5000,
    noVolume := 3000, status := "open" }

/-- Mapping giving the scoring (home) side pre-goal probability 0.35. -/
def mapping35 : MatchMarketMapping :=
  { matchId := 1, markets := [market0], preGoalHomeProb := some (35/100),
    preGoalAwayProb := some (65/100) }

/-- Mapping giving the scoring (home) side pre-goal probability 0.65. -/
def mapping65 : MatchMarketMapping :=
  { mapping35 with preGoalHomeProb := some (65/100),
                   preGoalAwayProb := some (35/100) }

/-- Exchange response: immediately filled at 0.37. -/
def fillResult : Except String (Option KalshiResult) :=
  Except.ok (some { orderId := some "EX-1", status := some "filled",
                    avgPrice := some (37/100) })

/-- System state in which `goal0` is already marked processed while the
match and its mapping are cached and no position or order exists yet. -/
def sysProcessed : SysState :=
  { sm := { matchesMap := [(1, match0)], matchMappings := [(1, mapping35)],
            processedGoals := ["g1"] },
    rm := defaultRiskState 0 }

/-- An open "yes" position entered at 0.30 on size 50. -/
def pos1 : Position :=
  { id := "p1", matchId := 1, marketId := "MKT-LEEDS", exchange := "kalshi",
    outcome := "yes", size := 50, entryPrice := 3/10, currentPrice := 3/10,
    status := PositionStatus.opened, openedAt := 0, entryOrderId := "o0" }

/-- The trade paired with `pos1`, not yet finalized. -/
def trade1 : Trade :=
  { id := "t1", matchId := 1, matchName := "Leeds vs Chelsea",
    marketId := "MKT-LEEDS", exchange := "kalshi", outcome := "yes",
    entryPrice := 3/10, size := 50, entryTime := 0, goalEventId := "g1",
    reason := "entry" }

/-- System state holding `pos1` open and `trade1` unfinalized. -/
def sysClose : SysState :=
  { sm := { openPositions := [("p1", pos1)], trades := [trade1] },
    rm := defaultRiskState 0 }

/-- Exchange response for the closing sell: filled at 0.40. -/
def fill40Result : Except String (Option KalshiResult) :=
  Except.ok (some { orderId := some "EX-2", status := some "filled",
                    avgPrice := some (4/10) })

/-- An open "no" position entered at 0.30 whose market has risen to
0.40 (a loss for a "no" holder). -/
def posNo : Position :=
  { id := "pn", matchId := 1, marketId := "MKT-LEEDS", exchange := "kalshi",
    outcome := "no", size := 50, entryPrice := 3/10, currentPrice := 4/10,
    status := PositionStatus.opened, openedAt := 0, entryOrderId := "o0" }

/-!
C1. The spec requires a position entered at 0.30 ("yes"), exited at 0.40
on size 50, to realize +50 × (0.40−0.30)/0.30 = 50/3 ≈ 16.67, with the
paired Trade's pnl/pnl_pct matching. `PostTradeManager.calculate_pnl`
(whose docstring says it computes realized P/L for a closed position) and
the repository's own test fixture (`test_integration.py`, Trade with
entry 0.30, exit 0.40, size 50, pnl 16.67) both follow that fractional
convention, and sizes are dollar amounts throughout the core. But the
close path actually used, `TradeService.close_position` →
`StateManager.close_position`, sets
`realized_pnl = (exit_price - entry_price) * size` = 5.00 — never
dividing by the entry price and never calling `calculate_pnl` — and then
copies that 5.00 into `Trade.pnl` while setting `Trade.pnl_pct` to
33.33%, leaving `pnl ≠ size * pnl_pct / 100`.
-/

/-- C1: closing `pos1` at a 0.40 fill realizes 5 (not 50/3) in the code;
the paired trade records pnl 5 with pnl_pct 100/3, mutually inconsistent
with the fractional-return convention that `calculate_pnl` implements. -/
theorem close_position_realized_pnl_bug :
    (TradeService.close_position sysClose "p1" "manual" "i2" "o2"
        fill40Result 0 1 0).1.map Position.realizedPnl = some 5 ∧
    (TradeService.close_position sysClose "p1" "manual" "i2" "o2"
        fill40Result 0 1 0).1.map Position.currentPrice = some (4/10) ∧
    (TradeService.close_position sysClose "p1" "manual" "i2" "o2"
        fill40Result 0 1 0).2.sm.trades.map Trade.pnl = [5] ∧
    (TradeService.close_position sysClose "p1" "manual" "i2" "o2"
        fill40Result 0 1 0).2.sm.trades.map Trade.pnlPct = [100/3] ∧
    PostTrade.calculate_pnl (3/10) (4/10) 50 "yes" = (50/3, 100/3) ∧
    (5 : ℚ) ≠ 50 * ((4/10 - 3/10) / (3/10)) := by
  with_unfolding_all decide

/-!
C2. `TradeService.process_goal` performs no deduplication check: nothing
in it consults `state_manager.is_goal_processed`. The dedup key is
checked one layer up, in `GoalListener._poll_loop`, which skips an
already-processed goal id before invoking the callback.
-/

/-- C2 counterexample: with `goal0` already marked processed, a direct
re-submission to the orchestrator's `process_goal` still creates a new
Order (completed history grows) and a new Position. -/
theorem process_goal_ignores_processed_id :
    StateManager.is_goal_processed sysProcessed.sm goal0.id = true ∧
    sysProcessed.sm.openPositions.length = 0 ∧
    sysProcessed.ex.completed.length = 0 ∧
    (TradeService.process_goal sysProcessed goal0 match0 mapping35
        "i1" "o1" "p1" "t1" fillResult 0 1 0).2.sm.openPositions.length = 1 ∧
    (TradeService.process_goal sysProcessed goal0 match0 mapping35
        "i1" "o1" "p1" "t1" fillResult 0 1 0).2.ex.completed.length = 1 ∧
    (TradeService.process_goal sysProcessed goal0 match0 mapping35
        "i1" "o1" "p1" "t1" fillResult 0 1 0).1.isSome = true := by
  with_unfolding_all decide

/-- C2 as amended: the listener's poll-loop body skips any goal whose id
is already in the processed set, leaving every state component (orders,
positions, everything) unchanged, so no new Order or Position arises via
the polling pipeline. -/
theorem listener_skips_processed_goal (sys : SysState) (goal : GoalEvent)
    (createdMapping : MatchMarketMapping)
    (intentId orderId positionId tradeId : String)
    (submitResult : Except String (Option KalshiResult)) (t0 t1 : ℚ)
    (today : ℤ)
    (h : StateManager.is_goal_processed sys.sm goal.id = true) :
    GoalListener.handle_goal sys goal createdMapping intentId orderId
      positionId tradeId submitResult t0 t1 today = sys := by
  unfold GoalListener.handle_goal
  simp [h]

/-- C2 witness: the listener body on `sysProcessed` and `goal0` (already
processed) returns the state unchanged. -/
theorem listener_skips_processed_goal_witness :
    GoalListener.handle_goal sysProcessed goal0 mapping35 "i1" "o1" "p1"
      "t1" fillResult 0 1 0 = sysProcessed :=
  listener_skips_processed_goal sysProcessed goal0 mapping35 "i1" "o1" "p1"
    "t1" fillResult 0 1 0 (by with_unfolding_all decide)

/-!
C3. The spec requires the "no"-outcome sign flip in every P&L
computation, and `PostTradeManager`'s checks apply it; but the
exit-condition sweep actually wired into the bot's run loop,
`TradeService.check_exit_conditions`, recomputes the unrealized
percentage as `(current - entry) / entry` with no outcome flip, so a
losing "no" position (price moved up) is exited as `take_profit`
where the convention (and `PostTradeManager.get_exit_reason`) yields
`stop_loss`.
-/

/-- C3: on a "no" position entered at 0.30 with the price risen to 0.40,
the trade service's exit decision says take-profit while the sign-flipped
unrealized P&L is −100/3 percent and the post-trade monitor says
stop-loss. -/
theorem exit_check_missing_sign_flip :
    TradeService.exit_decision (15/100) (10/100) posNo 0 = some "take_profit" ∧
    (PostTrade.calculate_unrealized_pnl posNo).2 = -(100/3) ∧
    PostTrade.get_exit_reason defaultPostTradeCfg posNo 0 none =
      some "stop_loss" := by
  with_unfolding_all decide

/-! ## Risk sizing (C4) -/

/-- Second clamp of the sizing computation as a max/min expression. -/
lemma clamp_step (A m : ℚ) :
    (if m < max 0 A then max 0 m else max 0 A) = max 0 (min A m) := by
  rcases le_or_lt m A with hm | hm
  · rw [min_eq_right hm]
    split_ifs with h
    · rfl
    · have h1 : A ≤ max 0 A := le_max_right 0 A
      have h2 : m = A := le_antisymm hm (le_trans h1 (not_lt.mp h))
      rw [h2]
  · rw [min_eq_left hm.le]
    split_ifs with h
    · have hA0 : max 0 A = 0 := by
        rcases max_cases 0 A with ⟨h1, _⟩ | ⟨h1, _⟩
        · exact h1
        · rw [h1] at h; linarith
      rw [hA0] at h
      rw [hA0, max_eq_left h.le]
    · rfl

/-- The source's sequential clamping (base, then daily budget, then
per-match budget) equals the clamped three-way minimum, provided the base
is non-negative. -/
lemma seq_clamp_eq (a d m : ℚ) (ha : 0 ≤ a) :
    (let b1 := if d < a then max 0 d else a
     if m < b1 then max 0 m else b1) = max 0 (min a (min d m)) := by
  dsimp only []
  have hb1 : (if d < a then max 0 d else a) = max 0 (min a d) := by
    split_ifs with h
    · rw [min_eq_right h.le]
    · rw [min_eq_left (not_lt.mp h), max_eq_right ha]
  rw [hb1, clamp_step, min_assoc]

/-- Daily reset keeps the configured bankroll and per-trade fraction. -/
lemma reset_keeps_bankroll (st : RiskState) (today : ℤ) :
    (RiskManager.reset_daily_if_needed st today).bankroll = st.bankroll ∧
    (RiskManager.reset_daily_if_needed st today).maxPerTradePct =
      st.maxPerTradePct := by
  unfold RiskManager.reset_daily_if_needed
  split <;> exact ⟨rfl, rfl⟩

/-- Intent used for the concrete risk-sizing scenarios. -/
def intentC4 : OrderIntent :=
  { id := "i4", matchId := 1, marketId := "MKT-LEEDS", exchange := "kalshi",
    side := OrderSide.buy, outcome := "yes", size := 0, limitPrice := 35/100,
    reason := "", goalEventId := "" }

/-- Default risk state with $480 of daily loss already consumed. -/
def riskDown480 : RiskState := { defaultRiskState 0 with dailyPnl := -480 }

/-- C4: the Risk Manager sizes a trade as the (zero-floored) minimum of
bankroll × max-per-trade fraction, remaining daily-loss budget, and
remaining per-match budget; on the default $10,000 / 0.5% configuration
with a clean day it approves exactly $50.00, and with daily P&L at −$480
against the $500 limit it approves exactly $20.00. -/
theorem risk_approve_sizing (st : RiskState) (today : ℤ)
    (intent : OrderIntent) (h : 0 ≤ st.bankroll * st.maxPerTradePct) :
    ((RiskManager.calculate_position_size st today intent).1 =
      round2 (max 0 (min
        ((RiskManager.reset_daily_if_needed st today).bankroll *
          (RiskManager.reset_daily_if_needed st today).maxPerTradePct)
        (min ((RiskManager.reset_daily_if_needed st today).dailyLossLimit +
              (RiskManager.reset_daily_if_needed st today).dailyPnl)
          ((RiskManager.reset_daily_if_needed st today).perMatchMaxExposure -
            (alookup intent.matchId
              (RiskManager.reset_daily_if_needed st today).matchExposure).getD
              0))))) ∧
    (RiskManager.approve_trade (defaultRiskState 0) 0 intentC4).1.1 =
      some { intentC4 with size := 50 } ∧
    (RiskManager.approve_trade riskDown480 0 intentC4).1.1 =
      some { intentC4 with size := 20 } := by
  refine ⟨?_, by with_unfolding_all decide, by with_unfolding_all decide⟩
  unfold RiskManager.calculate_position_size
  dsimp only []
  rw [seq_clamp_eq]
  rw [(reset_keeps_bankroll st today).1, (reset_keeps_bankroll st today).2]
  exact h

/-- C4 witness: the sizing theorem applied to the default configuration
yields the exact $50.00 approval. -/
theorem risk_approve_sizing_witness :
    (RiskManager.approve_trade (defaultRiskState 0) 0 intentC4).1.1 =
      some { intentC4 with size := 50 } :=
  (risk_approve_sizing (defaultRiskState 0) 0 intentC4
    (by with_unfolding_all decide)).2.1

/-! ## Circuit breaker (C5) -/

/-- Daily reset never touches the circuit-breaker flag. -/
lemma reset_keeps_breaker (s : RiskState) (today : ℤ) :
    (RiskManager.reset_daily_if_needed s today).circuitBreakerActive =
      s.circuitBreakerActive := by
  unfold RiskManager.reset_daily_if_needed
  split <;> rfl

/-- Iterating `record_error` adds one error per call and keeps the
configured threshold. -/
lemma record_error_iter_fields (msg : String) (n : ℕ) (st : RiskState) :
    ((fun s => RiskManager.record_error s msg)^[n] st).consecutiveErrors =
      st.consecutiveErrors + n ∧
    ((fun s => RiskManager.record_error s msg)^[n] st).maxConsecutiveErrors =
      st.maxConsecutiveErrors := by
  induction n with
  | zero => exact ⟨rfl, rfl⟩
  | succ m ih =>
    obtain ⟨ih1, ih2⟩ := ih
    rw [Function.iterate_succ_apply']
    set t := (fun s => RiskManager.record_error s msg)^[m] st with ht
    constructor
    · show (RiskManager.record_error t msg).consecutiveErrors = _
      unfold RiskManager.record_error
      dsimp only []
      split <;> simp only [] <;> rw [ih1] <;> omega
    · show (RiskManager.record_error t msg).maxConsecutiveErrors = _
      unfold RiskManager.record_error
      dsimp only []
      split <;> exact ih2

/-- Enough iterated `record_error` calls trip the breaker. -/
lemma record_error_iter_trips (msg : String) (n : ℕ) (st : RiskState)
    (hn : 0 < n) (h : st.maxConsecutiveErrors ≤ st.consecutiveErrors + n) :
    ((fun s => RiskManager.record_error s msg)^[n] st).circuitBreakerActive =
      true := by
  cases n with
  | zero => omega
  | succ m =>
    rw [Function.iterate_succ_apply']
    set t := (fun s => RiskManager.record_error s msg)^[m] st with ht
    have hc := (record_error_iter_fields msg m st).1
    have hm := (record_error_iter_fields msg m st).2
    rw [← ht] at hc hm
    show (RiskManager.record_error t msg).circuitBreakerActive = true
    unfold RiskManager.record_error
    dsimp only []
    rw [if_pos (by rw [hc, hm]; omega)]

/-- While the breaker flag is set, both the allow-check and the approval
reject, whatever the other conditions. -/
lemma breaker_blocks_all (s : RiskState) (today : ℤ) (intent : OrderIntent)
    (h : s.circuitBreakerActive = true) :
    (RiskManager.check_trade_allowed s today intent).1.1 = false ∧
    (RiskManager.approve_trade s today intent).1.1 = none := by
  have hb : (RiskManager.reset_daily_if_needed s today).circuitBreakerActive =
      true := by
    rw [reset_keeps_breaker]; exact h
  have hfull : RiskManager.check_trade_allowed s today intent =
      ((false, "Circuit breaker active after " ++
        toString (RiskManager.reset_daily_if_needed s today).consecutiveErrors
        ++ " consecutive errors"),
        RiskManager.reset_daily_if_needed s today) := by
    unfold RiskManager.check_trade_allowed
    simp [hb]
  constructor
  · rw [hfull]
  · unfold RiskManager.approve_trade
    rw [hfull]
    rfl

/-- C5: after threshold-many consecutive `record_error` calls the breaker
flag is set; a following `record_success` zeroes the error counter but
leaves the flag set; while the flag is set every approval is rejected
regardless of all other conditions; only the explicit reset clears it. -/
theorem circuit_breaker_semantics (st : RiskState) (msg : String)
    (intent : OrderIntent) (today : ℤ) (h : 0 < st.maxConsecutiveErrors) :
    ((fun s => RiskManager.record_error s msg)^[st.maxConsecutiveErrors]
        st).circuitBreakerActive = true ∧
    (RiskManager.record_success
        ((fun s => RiskManager.record_error s msg)^[st.maxConsecutiveErrors]
          st)).circuitBreakerActive = true ∧
    (RiskManager.record_success
        ((fun s => RiskManager.record_error s msg)^[st.maxConsecutiveErrors]
          st)).consecutiveErrors = 0 ∧
    (∀ s : RiskState, s.circuitBreakerActive = true →
      (RiskManager.check_trade_allowed s today intent).1.1 = false ∧
      (RiskManager.approve_trade s today intent).1.1 = none) ∧
    (RiskManager.reset_circuit_breaker
        ((fun s => RiskManager.record_error s msg)^[st.maxConsecutiveErrors]
          st)).circuitBreakerActive = false ∧
    (RiskManager.reset_circuit_breaker
        ((fun s => RiskManager.record_error s msg)^[st.maxConsecutiveErrors]
          st)).consecutiveErrors = 0 := by
  have htrip := record_error_iter_trips msg st.maxConsecutiveErrors st h
    (by omega)
  refine ⟨htrip, ?_, rfl, fun s hs => breaker_blocks_all s today intent hs,
    rfl, rfl⟩
  unfold RiskManager.record_success
  simpa using htrip

/-- C5 witness: the breaker scenario at the default configuration
(threshold 5). -/
theorem circuit_breaker_semantics_witness :
    ((fun s => RiskManager.record_error s "err")^[
        (defaultRiskState 0).maxConsecutiveErrors]
        (defaultRiskState 0)).circuitBreakerActive = true ∧
    (RiskManager.record_success
        ((fun s => RiskManager.record_error s "err")^[
          (defaultRiskState 0).maxConsecutiveErrors]
          (defaultRiskState 0))).circuitBreakerActive = true ∧
    (RiskManager.record_success
        ((fun s => RiskManager.record_error s "err")^[
          (defaultRiskState 0).maxConsecutiveErrors]
          (defaultRiskState 0))).consecutiveErrors = 0 ∧
    (∀ s : RiskState, s.circuitBreakerActive = true →
      (RiskManager.check_trade_allowed s 0 intentC4).1.1 = false ∧
      (RiskManager.approve_trade s 0 intentC4).1.1 = none) ∧
    (RiskManager.reset_circuit_breaker
        ((fun s => RiskManager.record_error s "err")^[
          (defaultRiskState 0).maxConsecutiveErrors]
          (defaultRiskState 0))).circuitBreakerActive = false ∧
    (RiskManager.reset_circuit_breaker
        ((fun s => RiskManager.record_error s "err")^[
          (defaultRiskState 0).maxConsecutiveErrors]
          (defaultRiskState 0))).consecutiveErrors = 0 :=
  circuit_breaker_semantics (defaultRiskState 0) "err" intentC4 0
    (by with_unfolding_all decide)

/-! ## Strategy evaluator underdog threshold (C6) -/

/-- C6: when the scoring side's pre-event implied probability is 0.65,
the evaluator returns no intent (0.65 is not below the 0.5 underdog
threshold), whatever the rest of the inputs; and on the concrete
0.35-probability scenario with a matched market quoted at 0.35 it returns
a non-null intent. -/
theorem evaluator_underdog_threshold (goal : GoalEvent) (mtch : Match)
    (mapping : MatchMarketMapping) (intentId : String)
    (h : (if goal.scoringTeamId = mtch.homeTeam.id then mapping.preGoalHomeProb
          else mapping.preGoalAwayProb) = some (65/100)) :
    DecisionEngine.evaluate_goal defaultEngineCfg goal mtch mapping intentId =
      none ∧
    (DecisionEngine.evaluate_goal defaultEngineCfg goal0 match0 mapping35
      "i1").isSome = true := by
  refine ⟨?_, by with_unfolding_all decide⟩
  have hlt : ¬ ((65 : ℚ)/100 < defaultEngineCfg.underdogThreshold) := by
    unfold defaultEngineCfg
    norm_num
  by_cases hH : goal.scoringTeamId = mtch.homeTeam.id
  · rw [if_pos hH] at h
    simp [DecisionEngine.evaluate_goal, DecisionEngine.is_underdog, hH, h, hlt]
  · rw [if_neg hH] at h
    simp [DecisionEngine.evaluate_goal, DecisionEngine.is_underdog, hH, h, hlt]

/-- C6 witness: on `mapping65` (scoring side at 0.65) the evaluator
returns `none`; on `mapping35` it returns an intent. -/
theorem evaluator_underdog_threshold_witness :
    DecisionEngine.evaluate_goal defaultEngineCfg goal0 match0 mapping65 "i1" =
      none ∧
    (DecisionEngine.evaluate_goal defaultEngineCfg goal0 match0 mapping35
      "i1").isSome = true :=
  evaluator_underdog_threshold goal0 match0 mapping65 "i1"
    (by with_unfolding_all decide)

/-! ## Daily rollover reset (C7)

The claim says every public Risk Manager operation performs the daily
rollover check first. In the source only `get_status`,
`calculate_position_size`, `check_trade_allowed`, `approve_trade` (via
`check_trade_allowed`) and `record_trade_result` call
`_reset_daily_if_needed`; `record_error`, `record_success`,
`reset_circuit_breaker`, `update_bankroll`, `add_position` and
`remove_position` never consult the date at all (they take no date
parameter here because the source never calls `date.today()` in them).
Note also that the source uses `date.today()` — the process-local
calendar date — not an explicitly UTC date. -/

/-- Risk state carrying stale daily counters from day 0. -/
def staleRisk : RiskState :=
  { defaultRiskState 0 with dailyPnl := 5, matchExposure := [(1, 50)] }

/-- C7 counterexample: `record_error` is a public operation, yet it
leaves a stale daily P&L of 5 and a non-empty exposure map untouched —
it performs no rollover reset (it cannot: it never reads the date). -/
theorem record_error_skips_daily_reset :
    (RiskManager.record_error staleRisk "boom").dailyPnl = 5 ∧
    (RiskManager.record_error staleRisk "boom").matchExposure = [(1, 50)] ∧
    (RiskManager.record_error staleRisk "boom").currentDate = 0 ∧
    ((5 : ℚ) ≠ 0) := by
  with_unfolding_all decide

/-- A changed date makes the reset zero the daily P&L, clear the exposure
map and store the new date. -/
lemma reset_on_new_day (st : RiskState) (today : ℤ)
    (h : today ≠ st.currentDate) :
    RiskManager.reset_daily_if_needed st today =
      { st with dailyPnl := 0, currentDate := today, matchExposure := [] } := by
  unfold RiskManager.reset_daily_if_needed
  rw [if_pos h]

/-- C7 as amended: on a date change, each of the five operations that do
call the rollover check (`get_status`, `calculate_position_size`,
`check_trade_allowed`, `approve_trade`, `record_trade_result`) leaves a
state whose daily P&L was zeroed and whose exposure map was cleared
before the operation's own effect, with the stored date advanced. -/
theorem daily_rollover_reset (st : RiskState) (today : ℤ)
    (intent : OrderIntent) (matchId : ℤ) (pnl dx : ℚ)
    (h : today ≠ st.currentDate) :
    ((RiskManager.get_status st today).2.dailyPnl = 0 ∧
     (RiskManager.get_status st today).2.matchExposure = [] ∧
     (RiskManager.get_status st today).2.currentDate = today ∧
     (RiskManager.get_status st today).1.dailyPnl = 0) ∧
    ((RiskManager.calculate_position_size st today intent).2.dailyPnl = 0 ∧
     (RiskManager.calculate_position_size st today intent).2.matchExposure =
       [] ∧
     (RiskManager.calculate_position_size st today intent).2.currentDate =
       today) ∧
    ((RiskManager.check_trade_allowed st today intent).2.dailyPnl = 0 ∧
     (RiskManager.check_trade_allowed st today intent).2.matchExposure = [] ∧
     (RiskManager.check_trade_allowed st today intent).2.currentDate =
       today) ∧
    ((RiskManager.approve_trade st today intent).2.dailyPnl = 0 ∧
     (RiskManager.approve_trade st today intent).2.matchExposure = [] ∧
     (RiskManager.approve_trade st today intent).2.currentDate = today) ∧
    ((RiskManager.record_trade_result st today matchId pnl dx).dailyPnl =
       0 + pnl ∧
     (RiskManager.record_trade_result st today matchId pnl dx).matchExposure =
       [(matchId, max 0 (0 + dx))] ∧
     (RiskManager.record_trade_result st today matchId pnl dx).currentDate =
       today) := by
  set R : RiskState :=
    { st with dailyPnl := 0, currentDate := today, matchExposure := [] }
    with hRdef
  have hR : RiskManager.reset_daily_if_needed st today = R :=
    reset_on_new_day st today h
  have hRR : RiskManager.reset_daily_if_needed R today = R := by
    unfold RiskManager.reset_daily_if_needed
    simp [hRdef]
  have hCalcR : RiskManager.calculate_position_size R today intent =
      ((RiskManager.calculate_position_size R today intent).1, R) := by
    unfold RiskManager.calculate_position_size
    rw [hRR]
  have hCalc : RiskManager.calculate_position_size st today intent =
      ((RiskManager.calculate_position_size st today intent).1, R) := by
    unfold RiskManager.calculate_position_size
    rw [hR]
  have hCheck : (RiskManager.check_trade_allowed st today intent).2 = R := by
    unfold RiskManager.check_trade_allowed
    rw [hR]
    dsimp only []
    split_ifs <;> first | rfl | rw [hCalcR]
  have hApprove : (RiskManager.approve_trade st today intent).2 = R := by
    unfold RiskManager.approve_trade
    rcases hc : RiskManager.check_trade_allowed st today intent with
      ⟨⟨allowed, reason⟩, st1⟩
    have hst1 : st1 = R := by
      have hx := hCheck
      rw [hc] at hx
      exact hx
    dsimp only []
    subst hst1
    split_ifs <;> first | rfl | rw [hCalcR]
  refine ⟨⟨?_, ?_, ?_, ?_⟩, ⟨?_, ?_, ?_⟩, ⟨?_, ?_, ?_⟩, ⟨?_, ?_, ?_⟩,
    ⟨?_, ?_, ?_⟩⟩
  · unfold RiskManager.get_status
    rw [hR]
  · unfold RiskManager.get_status
    rw [hR]
  · unfold RiskManager.get_status
    rw [hR]
  · unfold RiskManager.get_status
    rw [hR]
  · rw [hCalc]
  · rw [hCalc]
  · rw [hCalc]
  · rw [hCheck]
  · rw [hCheck]
  · rw [hCheck]
  · rw [hApprove]
  · rw [hApprove]
  · rw [hApprove]
  · unfold RiskManager.record_trade_result
    rw [hR]
  · unfold RiskManager.record_trade_result
    rw [hR]
    dsimp only []
    simp [aset, alookup]
  · unfold RiskManager.record_trade_result
    rw [hR]

/-- C7 witness: the rollover theorem instantiated at `staleRisk` (stored
date 0) on day 1. -/
theorem daily_rollover_reset_witness :
    ((RiskManager.get_status staleRisk 1).2.dailyPnl = 0 ∧
     (RiskManager.get_status staleRisk 1).2.matchExposure = [] ∧
     (RiskManager.get_status staleRisk 1).2.currentDate = 1 ∧
     (RiskManager.get_status staleRisk 1).1.dailyPnl = 0) ∧
    ((RiskManager.calculate_position_size staleRisk 1 intentC4).2.dailyPnl =
       0 ∧
     (RiskManager.calculate_position_size staleRisk 1
       intentC4).2.matchExposure = [] ∧
     (RiskManager.calculate_position_size staleRisk 1 intentC4).2.currentDate =
       1) ∧
    ((RiskManager.check_trade_allowed staleRisk 1 intentC4).2.dailyPnl = 0 ∧
     (RiskManager.check_trade_allowed staleRisk 1 intentC4).2.matchExposure =
       [] ∧
     (RiskManager.check_trade_allowed staleRisk 1 intentC4).2.currentDate =
       1) ∧
    ((RiskManager.approve_trade staleRisk 1 intentC4).2.dailyPnl = 0 ∧
     (RiskManager.approve_trade staleRisk 1 intentC4).2.matchExposure = [] ∧
     (RiskManager.approve_trade staleRisk 1 intentC4).2.currentDate = 1) ∧
    ((RiskManager.record_trade_result staleRisk 1 2 7 30).dailyPnl = 0 + 7 ∧
     (RiskManager.record_trade_result staleRisk 1 2 7 30).matchExposure =
       [(2, max 0 (0 + 30))] ∧
     (RiskManager.record_trade_result staleRisk 1 2 7 30).currentDate = 1) :=
  daily_rollover_reset staleRisk 1 intentC4 2 7 30
    (by with_unfolding_all decide)

/-! ## Exit priority (C8) -/

/-- C8: the post-trade monitor's exit reason is decided in the fixed
priority order take-profit, stop-loss, time-exit, match-ended — the first
condition that holds wins, and in particular a triggered take-profit
dominates every other simultaneously-true condition. -/
theorem exit_reason_priority (cfg : PostTradeCfg) (position : Position)
    (now : ℚ) (mtchOpt : Option Match) :
    (PostTrade.check_take_profit cfg position = true →
      PostTrade.get_exit_reason cfg position now mtchOpt =
        some "take_profit") ∧
    (PostTrade.check_take_profit cfg position = false →
      PostTrade.check_stop_loss cfg position = true →
      PostTrade.get_exit_reason cfg position now mtchOpt = some "stop_loss") ∧
    (PostTrade.check_take_profit cfg position = false →
      PostTrade.check_stop_loss cfg position = false →
      PostTrade.check_time_exit cfg position now = true →
      PostTrade.get_exit_reason cfg position now mtchOpt = some "time_exit") ∧
    (PostTrade.check_take_profit cfg position = false →
      PostTrade.check_stop_loss cfg position = false →
      PostTrade.check_time_exit cfg position now = false →
      PostTrade.check_match_ended mtchOpt = true →
      PostTrade.get_exit_reason cfg position now mtchOpt =
        some "match_ended") ∧
    (PostTrade.check_take_profit cfg position = false →
      PostTrade.check_stop_loss cfg position = false →
      PostTrade.check_time_exit cfg position now = false →
      PostTrade.check_match_ended mtchOpt = false →
      PostTrade.get_exit_reason cfg position now mtchOpt = none) := by
  unfold PostTrade.get_exit_reason
  refine ⟨fun h1 => ?_, fun h1 h2 => ?_, fun h1 h2 h3 => ?_,
    fun h1 h2 h3 h4 => ?_, fun h1 h2 h3 h4 => ?_⟩ <;> simp_all

/-- Copy of `match0` whose status has reached a terminal value. -/
def matchDone : Match := { match0 with status := MatchStatus.finished }

/-- An open "yes" position that is simultaneously in take-profit
territory (+33.3% ≥ 15%) and past the 90-minute hold limit. -/
def posTp : Position :=
  { id := "pt", matchId := 1, marketId := "MKT-LEEDS", exchange := "kalshi",
    outcome := "yes", size := 50, entryPrice := 3/10, currentPrice := 4/10,
    status := PositionStatus.opened, openedAt := 0, entryOrderId := "o0" }

/-- C8 witness: with take-profit, time-exit and match-ended all true at
once, the returned reason is take-profit. -/
theorem exit_reason_priority_witness :
    PostTrade.check_take_profit defaultPostTradeCfg posTp = true ∧
    PostTrade.check_time_exit defaultPostTradeCfg posTp 6000 = true ∧
    PostTrade.check_match_ended (some matchDone) = true ∧
    PostTrade.get_exit_reason defaultPostTradeCfg posTp 6000 (some matchDone) =
      some "take_profit" :=
  ⟨by with_unfolding_all decide, by with_unfolding_all decide,
   by with_unfolding_all decide,
   (exit_reason_priority defaultPostTradeCfg posTp 6000 (some matchDone)).1
     (by with_unfolding_all decide)⟩

/-! ## Order executor fault handling and bookkeeping (C9, C10) -/

/-- Erasing a key after setting it equals erasing it outright. -/
lemma aerase_aset_self {α β : Type} [DecidableEq α] (k : α) (v : β)
    (d : List (α × β)) : aerase k (aset k v d) = aerase k d := by
  unfold aerase aset
  rw [List.filter_append]
  simp [List.filter_filter]

/-- A key never survives its own erasure. -/
lemma alookup_aerase_self {α β : Type} [DecidableEq α] (k : α)
    (d : List (α × β)) : alookup k (aerase k d) = none := by
  induction d with
  | nil => rfl
  | cons hd tl ih =>
    by_cases h : hd.1 = k
    · simpa [aerase, List.filter_cons, h] using ih
    · simpa [aerase, List.filter_cons, h, alookup] using ih

/-- The executor's `finally` bookkeeping: the order leaves the pending
set and lands exactly once at the end of the completed history. -/
lemma finalize_state (es : ExecState) (v o : Order) (orderId : String) :
    (OrderExecutor.finalize es (aset orderId v es.pending) orderId
      o).pending = aerase orderId es.pending ∧
    (OrderExecutor.finalize es (aset orderId v es.pending) orderId
      o).completed = es.completed ++ [o] := by
  unfold OrderExecutor.finalize
  exact ⟨aerase_aset_self orderId v es.pending, rfl⟩

/-- C9: a raised exchange fault never escapes `execute` (the embedding is
a total function); it is converted into a returned Order whose status is
rejected and whose error message is the captured fault text, paired with
the "Execution error" message. -/
theorem execute_fault_rejection (es : ExecState) (intent : OrderIntent)
    (orderId msg : String) (t0 t1 : ℚ) (h : intent.exchange = "kalshi") :
    ∃ o : Order,
      (OrderExecutor.execute es intent orderId (Except.error msg) t0 t1).1 =
        (some o, "Execution error: " ++ msg) ∧
      o.status = OrderStatus.rejected ∧
      o.errorMessage = some msg := by
  unfold OrderExecutor.execute
  simp only [h, if_pos]
  exact ⟨_, rfl, rfl, rfl⟩

/-- Intent routed to the recognized exchange. -/
def intentKalshi : OrderIntent :=
  { id := "i9", matchId := 1, marketId := "M9", exchange := "kalshi",
    side := OrderSide.buy, outcome := "yes", size := 10, limitPrice := 1/2,
    reason := "", goalEventId := "" }

/-- Empty executor state. -/
def emptyExec : ExecState := {}

/-- C9 witness: a concrete fault "boom" comes back as a rejected order
with the captured message. -/
theorem execute_fault_rejection_witness :
    ∃ o : Order,
      (OrderExecutor.execute emptyExec intentKalshi "o9" (Except.error "boom")
        0 1).1 = (some o, "Execution error: " ++ "boom") ∧
      o.status = OrderStatus.rejected ∧
      o.errorMessage = some "boom" :=
  execute_fault_rejection emptyExec intentKalshi "o9" "boom" 0 1 rfl

/-- C10: every `execute` call removes the created order from the pending
working set and appends it exactly once to the completed history — and on
an unrecognized exchange the call returns `(none, message)` while the
order, still pending (never marked terminal), is nonetheless appended to
the completed history. -/
theorem execute_always_completes (es : ExecState) (intent : OrderIntent)
    (orderId : String) (submitResult : Except String (Option KalshiResult))
    (t0 t1 : ℚ) :
    ∃ o : Order,
      (OrderExecutor.execute es intent orderId submitResult t0
        t1).2.completed = es.completed ++ [o] ∧
      o.id = orderId ∧
      (OrderExecutor.execute es intent orderId submitResult t0 t1).2.pending =
        aerase orderId es.pending ∧
      alookup orderId
        (OrderExecutor.execute es intent orderId submitResult t0
          t1).2.pending = none ∧
      (intent.exchange ≠ "kalshi" →
        (OrderExecutor.execute es intent orderId submitResult t0 t1).1 =
          (none, "Unknown exchange: " ++ intent.exchange) ∧
        o.status = OrderStatus.pending) := by
  unfold OrderExecutor.execute
  by_cases hx : intent.exchange = "kalshi"
  · rw [if_pos hx]
    rcases submitResult with msg | r
    · refine ⟨_, (finalize_state es _ _ orderId).2, rfl,
        (finalize_state es _ _ orderId).1, ?_, fun hc => absurd hx hc⟩
      rw [(finalize_state es _ _ orderId).1]
      exact alookup_aerase_self orderId es.pending
    · rcases r with _ | r
      · refine ⟨_, (finalize_state es _ _ orderId).2, rfl,
          (finalize_state es _ _ orderId).1, ?_, fun hc => absurd hx hc⟩
        rw [(finalize_state es _ _ orderId).1]
        exact alookup_aerase_self orderId es.pending
      · by_cases hs : r.status = some "filled"
        · simp only [hs, if_pos]
          refine ⟨_, (finalize_state es _ _ orderId).2, rfl,
            (finalize_state es _ _ orderId).1, ?_, fun hc => absurd hx hc⟩
          rw [(finalize_state es _ _ orderId).1]
          exact alookup_aerase_self orderId es.pending
        · simp only [hs]
          refine ⟨_, (finalize_state es _ _ orderId).2, rfl,
            (finalize_state es _ _ orderId).1, ?_, fun hc => absurd hx hc⟩
          rw [(finalize_state es _ _ orderId).1]
          exact alookup_aerase_self orderId es.pending
  · rw [if_neg hx]
    refine ⟨_, (finalize_state es _ _ orderId).2, rfl,
      (finalize_state es _ _ orderId).1, ?_, fun _ => ⟨rfl, rfl⟩⟩
    rw [(finalize_state es _ _ orderId).1]
    exact alookup_aerase_self orderId es.pending

/-- Intent naming an exchange the executor does not recognize. -/
def intentPoly : OrderIntent :=
  { id := "iA", matchId := 1, marketId := "MA", exchange := "polymarket",
    side := OrderSide.buy, outcome := "yes", size := 10, limitPrice := 1/2,
    reason := "", goalEventId := "" }

/-- C10 witness: the bookkeeping theorem at a concrete unrecognized
exchange input. -/
theorem execute_always_completes_witness :
    ∃ o : Order,
      (OrderExecutor.execute emptyExec intentPoly "oA" (Except.ok none) 0
        1).2.completed = emptyExec.completed ++ [o] ∧
      o.id = "oA" ∧
      (OrderExecutor.execute emptyExec intentPoly "oA" (Except.ok none) 0
        1).2.pending = aerase "oA" emptyExec.pending ∧
      alookup "oA"
        (OrderExecutor.execute emptyExec intentPoly "oA" (Except.ok none) 0
          1).2.pending = none ∧
      (intentPoly.exchange ≠ "kalshi" →
        (OrderExecutor.execute emptyExec intentPoly "oA" (Except.ok none) 0
          1).1 = (none, "Unknown exchange: " ++ intentPoly.exchange) ∧
        o.status = OrderStatus.pending) :=
  execute_always_completes emptyExec intentPoly "oA" (Except.ok none) 0 1
